import Mathlib

/-!
Shallow embedding of the intelligent plant care system.

The repository's src tree holds only the two configuration headers,
src/PlantCareSystem/config.h and src/config.h.  The numeric constants
below are transcribed from src/PlantCareSystem/config.h (the current
site configuration).  The behaviour of the Irrigation Decision Engine,
Pump Arbitration, Shading Controller and Calibration Mapper is not under
src, so each of those definitions is modelled from the design document,
as stated in its doc comment.
-/

namespace PlantCare

/-- CRITICAL_DRY_THRESHOLD, src/PlantCareSystem/config.h line 39: never skip watering below this. -/
def CRITICAL_DRY_THRESHOLD : Nat := 20

/-- SAFE_SKIP_THRESHOLD, src/PlantCareSystem/config.h line 40: can skip if rain in 3h. -/
def SAFE_SKIP_THRESHOLD : Nat := 30

/-- PREVENTIVE_SKIP_THRESHOLD, src/PlantCareSystem/config.h line 41: can skip if rain in 6h. -/
def PREVENTIVE_SKIP_THRESHOLD : Nat := 40

/-- SOIL_MOISTURE_THRESHOLD_DRY, src/PlantCareSystem/config.h line 58: below this = dry, needs watering. -/
def SOIL_MOISTURE_THRESHOLD_DRY : Nat := 30

/-- CRITICAL_MOISTURE_LEVEL, src/PlantCareSystem/config.h line 106: critical dry threshold, send alerts. -/
def CRITICAL_MOISTURE_LEVEL : Nat := 15

/-- RAIN_THRESHOLD_3H_MM, src/PlantCareSystem/config.h line 35, millimetres (3.0 in the header, represented exactly as a rational). -/
def RAIN_THRESHOLD_3H_MM : ℚ := 3

/-- RAIN_THRESHOLD_6H_MM, src/PlantCareSystem/config.h line 36, millimetres (2.0 in the header, represented exactly as a rational). -/
def RAIN_THRESHOLD_6H_MM : ℚ := 2

/-- WATER_PUMP_MAX_DURATION_MS, src/PlantCareSystem/config.h line 77: 30 s safety timeout per cycle. -/
def WATER_PUMP_MAX_DURATION_MS : Nat := 30000

/-- MIN_TIME_BETWEEN_WATERING_MS, src/PlantCareSystem/config.h line 116: minimum 30 minutes between watering cycles per plant. -/
def MIN_TIME_BETWEEN_WATERING_MS : Nat := 1800000

/-- WEATHER_UPDATE_INTERVAL_MS, src/PlantCareSystem/config.h line 26: forecast refresh interval, 1 hour. -/
def WEATHER_UPDATE_INTERVAL_MS : Nat := 3600000

/-- LUX_THRESHOLD_HIGH, src/PlantCareSystem/config.h line 64: above this = intense light, shade needed. -/
def LUX_THRESHOLD_HIGH : Nat := 15000

/-- SOIL_SENSOR_DRY_VALUE, src/PlantCareSystem/config.h line 119: analog reading in dry air. -/
def SOIL_SENSOR_DRY_VALUE : ℤ := 492

/-- SOIL_SENSOR_WET_VALUE, src/PlantCareSystem/config.h line 120: analog reading in water. -/
def SOIL_SENSOR_WET_VALUE : ℤ := 202

/-- Skip reasons of the Irrigation Decision Engine, design document section 4.5. -/
inductive SkipReason where
  | Cooldown
  | RainImminent3h
  | RainExpected6h
  | RainDetectedNow
  | Sufficient
deriving DecidableEq, Repr

/-- Decisions of the Irrigation Decision Engine, design document section 4.5. -/
inductive Decision where
  | Water
  | Skip (reason : SkipReason)
  | AlreadyWatering
deriving DecidableEq, Repr

/-- Forecast data the engine consumes once a snapshot has been judged fresh: predicted precipitation for the next two 3-hour buckets. -/
structure Forecast where
  rain3hMm : ℚ
  rain6hMm : ℚ
deriving DecidableEq, Repr

/-- ForecastSnapshot as published by the weather collaborator, design document section 3: rain amounts plus fetch timestamp. -/
structure ForecastSnapshot where
  rain3hMm : ℚ
  rain6hMm : ℚ
  fetchedAt : Nat
deriving DecidableEq, Repr

/-- Modelled from the spec: a missing snapshot, or one older than one
refresh interval (WEATHER_UPDATE_INTERVAL_MS), is treated as unknown
rain; otherwise the snapshot's rain amounts are used.  The engine never
blocks: this is a total function of the latest available snapshot. -/
def effectiveForecast (snap : Option ForecastSnapshot) (now : Nat) : Option Forecast :=
  match snap with
  | none => none
  | some s =>
      if WEATHER_UPDATE_INTERVAL_MS < now - s.fetchedAt then none
      else some ⟨s.rain3hMm, s.rain6hMm⟩

/-- Modelled from the spec: step 2 guard of the decision policy.  A plant
that has never been watered is not in cooldown; otherwise cooldown holds
while now - lastWateredAt is below MIN_TIME_BETWEEN_WATERING_MS. -/
def inCooldown (now : Nat) (lastWateredAt : Option Nat) : Bool :=
  match lastWateredAt with
  | none => false
  | some t => now - t < MIN_TIME_BETWEEN_WATERING_MS

/-- Modelled from the spec: the 3-hour forecast guard of step 4; false when the forecast is unknown. -/
def forecastSkip3h (forecast : Option Forecast) : Bool :=
  match forecast with
  | none => false
  | some f => decide (RAIN_THRESHOLD_3H_MM ≤ f.rain3hMm)

/-- Modelled from the spec: the 6-hour forecast guard of step 5; false when the forecast is unknown. -/
def forecastSkip6h (forecast : Option Forecast) : Bool :=
  match forecast with
  | none => false
  | some f => decide (RAIN_THRESHOLD_6H_MM ≤ f.rain6hMm)

/-- Modelled from the spec: the Irrigation Decision Engine (design
document section 4.5, missing from src).  The eight policy steps are
evaluated in the fixed precedence order given there, first match wins:
1 already watering, 2 cooldown, 3 critical dry floor, 4 rain imminent
within 3 h, 5 rain expected within 6 h, 6 rain detected now, 7 dry,
8 sufficient. -/
def decideIrrigation (leaseHeld : Bool) (moisturePercent : Nat) (isRaining : Bool)
    (forecast : Option Forecast) (now : Nat) (lastWateredAt : Option Nat) : Decision :=
  if leaseHeld then Decision.AlreadyWatering
  else if inCooldown now lastWateredAt then Decision.Skip SkipReason.Cooldown
  else if moisturePercent < CRITICAL_DRY_THRESHOLD then Decision.Water
  else if moisturePercent < SAFE_SKIP_THRESHOLD ∧ forecastSkip3h forecast = true then
    Decision.Skip SkipReason.RainImminent3h
  else if moisturePercent < PREVENTIVE_SKIP_THRESHOLD ∧ forecastSkip6h forecast = true then
    Decision.Skip SkipReason.RainExpected6h
  else if isRaining then Decision.Skip SkipReason.RainDetectedNow
  else if moisturePercent < SOIL_MOISTURE_THRESHOLD_DRY then Decision.Water
  else Decision.Skip SkipReason.Sufficient

/-- Modelled from the spec: the policy restricted to the local
sensor-driven rules, the ones the design document says keep running when
the forecast is unknown or the system is offline (steps 1, 2, 3, the
local rain-sensor rule 6, and 7, 8); the forecast-dependent steps 4 and
5 are absent. -/
def decideLocal (leaseHeld : Bool) (moisturePercent : Nat) (isRaining : Bool)
    (now : Nat) (lastWateredAt : Option Nat) : Decision :=
  if leaseHeld then Decision.AlreadyWatering
  else if inCooldown now lastWateredAt then Decision.Skip SkipReason.Cooldown
  else if moisturePercent < CRITICAL_DRY_THRESHOLD then Decision.Water
  else if isRaining then Decision.Skip SkipReason.RainDetectedNow
  else if moisturePercent < SOIL_MOISTURE_THRESHOLD_DRY then Decision.Water
  else Decision.Skip SkipReason.Sufficient

/-- PumpLease, design document section 3: exclusive, time-bounded
ownership token for the shared pump and valve path, stamped with an
absolute expiry. -/
structure PumpLease where
  plantId : Nat
  expiry : Nat
deriving DecidableEq, Repr

/-- Result of a pump request: a granted lease, or Busy when the other plant holds one. -/
inductive ReqResult where
  | Granted (lease : PumpLease)
  | Busy
deriving DecidableEq, Repr

/-- Outcome reported when a lease ends, design document section 4.4: normal completion or forced safety timeout. -/
inductive Outcome where
  | Completed
  | SafetyTimeout
deriving DecidableEq, Repr

/-- Pump Arbitration state: the outstanding lease (at most one), whether
the pump runs, and which plant's valve is open (none when closed). -/
structure ArbState where
  lease : Option PumpLease
  pumpRunning : Bool
  openValve : Option Nat
deriving DecidableEq, Repr

/-- Initial arbitration state: no lease, pump off, valves closed. -/
def ArbState.init : ArbState := ⟨none, false, none⟩

/-- Modelled from the spec: Pump Arbitration request (design document
section 4.4, missing from src).  Fails with Busy if a lease is
outstanding; otherwise opens the requesting plant's valve, starts the
pump, and returns a lease whose expiry is now plus the requested
duration clamped to WATER_PUMP_MAX_DURATION_MS. -/
def request (a : ArbState) (plantId maxDurationMs now : Nat) : ArbState × ReqResult :=
  match a.lease with
  | some _ => (a, ReqResult.Busy)
  | none =>
      let l : PumpLease := ⟨plantId, now + min maxDurationMs WATER_PUMP_MAX_DURATION_MS⟩
      (⟨some l, true, some plantId⟩, ReqResult.Granted l)

/-- Modelled from the spec: releasing a lease closes the valve and stops
the pump on every exit path (design document section 4.4, missing from
src). -/
def releaseLease (_a : ArbState) : ArbState := ⟨none, false, none⟩

/-- Modelled from the spec: arbitration tick, called every control cycle
(design document section 4.4, missing from src).  If the outstanding
lease has expired (now at or past the stamped expiry), the pump is
forcibly stopped, the valve closed, the lease released, and a
SafetyTimeout outcome reported, independently of the owning decision
logic. -/
def arbTick (a : ArbState) (now : Nat) : ArbState × Option Outcome :=
  match a.lease with
  | none => (a, none)
  | some l =>
      if l.expiry ≤ now then (releaseLease a, some Outcome.SafetyTimeout)
      else (a, none)

/-- Whether the given plant currently owns the outstanding lease. -/
def plantHolds (a : ArbState) (pid : Nat) : Bool :=
  match a.lease with
  | none => false
  | some l => decide (l.plantId = pid)

/-- PlantState, design document section 3: per-plant state owned by the engine. -/
structure PlantState where
  plantId : Nat
  lastMoisturePercent : Nat
  lastWateredAt : Option Nat
  isWateringActive : Bool
  consecutiveCriticalReadings : Nat
deriving DecidableEq, Repr

/-- Initial per-plant state: never watered, not watering. -/
def initPlant (pid : Nat) : PlantState := ⟨pid, 0, none, false, 0⟩

/-- Whole-system state: the two plant contexts and the shared arbitration state. -/
structure SysState where
  plant1 : PlantState
  plant2 : PlantState
  arb : ArbState
deriving DecidableEq, Repr

/-- Initial system state. -/
def SysState.init : SysState := ⟨initPlant 1, initPlant 2, ArbState.init⟩

/-- Inputs of one control-loop tick: the clock, both calibrated moisture
readings, the debounced rain flag, the effective forecast, and per-plant
watering-completion signals observed by the engine while it holds a
lease. -/
structure TickInput where
  now : Nat
  moisture1 : Nat
  moisture2 : Nat
  isRaining : Bool
  forecast : Option Forecast
  done1 : Bool
  done2 : Bool
deriving DecidableEq, Repr

/-- Log of one tick: each plant's decision, its arbitration result when
it requested the pump, and whether the safety timeout fired. -/
structure TickLog where
  decision1 : Decision
  decision2 : Decision
  result1 : Option ReqResult
  result2 : Option ReqResult
  timeoutFired : Bool
deriving DecidableEq, Repr

/-- Modelled from the spec: one plant's evaluation inside a tick (design
document sections 2, 4.5 and 5, missing from src).  The engine computes
the decision; a Water decision submits a pump request for the full
safety budget, and a granted lease marks the plant as actively
watering. -/
def evalPlant (a : ArbState) (p : PlantState) (moisture : Nat) (isRaining : Bool)
    (forecast : Option Forecast) (now : Nat) : ArbState × PlantState × Decision × Option ReqResult :=
  let d := decideIrrigation (plantHolds a p.plantId) moisture isRaining forecast now p.lastWateredAt
  let p2 : PlantState :=
    { p with
      lastMoisturePercent := moisture
      consecutiveCriticalReadings :=
        if moisture < CRITICAL_MOISTURE_LEVEL then p.consecutiveCriticalReadings + 1 else 0 }
  match d with
  | Decision.Water =>
      match request a p2.plantId WATER_PUMP_MAX_DURATION_MS now with
      | (a2, ReqResult.Granted l) =>
          (a2, { p2 with isWateringActive := true }, d, some (ReqResult.Granted l))
      | (a2, ReqResult.Busy) => (a2, p2, d, some ReqResult.Busy)
  | d2 => (a, p2, d2, none)

/-- Bookkeeping when a plant's lease ends: the plant stops watering and
its lastWateredAt is stamped with the release time, re-arming the
cooldown. -/
def markReleased (p : PlantState) (now : Nat) : PlantState :=
  { p with isWateringActive := false, lastWateredAt := some now }

/-- Modelled from the spec: lease service phase at the end of a tick
(design document sections 4.4 and 4.5, missing from src).  The
arbitration tick runs first and forcibly releases an expired lease with
a SafetyTimeout; otherwise, if the owning plant's completion signal is
set, the engine releases the lease normally.  The returned flag records
whether the safety timeout fired. -/
def serviceLeases (a : ArbState) (p1 p2 : PlantState) (done1 done2 : Bool) (now : Nat) :
    ArbState × PlantState × PlantState × Bool :=
  match a.lease with
  | none => (a, p1, p2, false)
  | some l =>
      if l.expiry ≤ now then
        (releaseLease a,
         (if l.plantId = 1 then markReleased p1 now else p1),
         (if l.plantId = 2 then markReleased p2 now else p2),
         true)
      else if (decide (l.plantId = 1) && done1) || (decide (l.plantId = 2) && done2) then
        (releaseLease a,
         (if l.plantId = 1 then markReleased p1 now else p1),
         (if l.plantId = 2 then markReleased p2 now else p2),
         false)
      else (a, p1, p2, false)

/-- Modelled from the spec: one whole control-loop tick (design document
sections 2 and 5, missing from src).  Within a tick the plants are
evaluated in the fixed order plant 1 then plant 2, then held leases are
serviced. -/
def sysTick (s : SysState) (inp : TickInput) : SysState × TickLog :=
  let r1 := evalPlant s.arb s.plant1 inp.moisture1 inp.isRaining inp.forecast inp.now
  let r2 := evalPlant r1.1 s.plant2 inp.moisture2 inp.isRaining inp.forecast inp.now
  let sv := serviceLeases r2.1 r1.2.1 r2.2.1 inp.done1 inp.done2 inp.now
  (⟨sv.2.1, sv.2.2.1, sv.1⟩, ⟨r1.2.2.1, r2.2.2.1, r1.2.2.2, r2.2.2.2, sv.2.2.2⟩)

/-- Run the system from the initial state over a list of tick inputs. -/
def sysRun (inps : List TickInput) : SysState :=
  inps.foldl (fun s i => (sysTick s i).1) SysState.init

/-- Modelled from the spec: the Calibration Mapper (design document
section 4.1, missing from src).  The raw reading is clamped into the
closed interval bounded by the dry and wet calibration points, whichever
order they come in, and then linearly interpolated so that the dry point
maps to 0 and the wet point maps to 100.  Analog readings are integers;
the percentage is computed exactly as a rational. -/
def calibrate (rawValue dryValue wetValue : ℤ) : ℚ :=
  let lo : ℤ := min dryValue wetValue
  let hi : ℤ := max dryValue wetValue
  let clamped : ℤ := min (max rawValue lo) hi
  ((clamped : ℚ) - (dryValue : ℚ)) * 100 / ((wetValue : ℚ) - (dryValue : ℚ))

/-- Modelled from the spec: one step of the Shading Controller's logical
state machine (design document section 4.3, missing from src).  The
state is whether the shade covers the plants.  Entering Shaded requires
lux at or above LUX_THRESHOLD_HIGH; returning to Exposed requires lux to
fall below the threshold minus the hysteresis band, which the
implementation chooses nonzero. -/
def shadeStep (band : Nat) (isShaded : Bool) (lux : Nat) : Bool :=
  if isShaded then
    if lux < LUX_THRESHOLD_HIGH - band then false else true
  else
    if LUX_THRESHOLD_HIGH ≤ lux then true else false

/-- Number of shade-state transitions along a lux sample sequence starting from the given state. -/
def shadeChanges (band : Nat) (isShaded : Bool) : List Nat → Nat
  | [] => 0
  | lux :: rest =>
      let nxt := shadeStep band isShaded lux
      (if nxt = isShaded then 0 else 1) + shadeChanges band nxt rest

/-- Pump arbitration invariant: the valve and the pump track the outstanding lease. -/
def ArbInv (a : ArbState) : Prop :=
  match a.lease with
  | some l => a.openValve = some l.plantId ∧ a.pumpRunning = true
  | none => a.openValve = none ∧ a.pumpRunning = false

/-- A plant's isWateringActive flag agrees with lease ownership. -/
def activeMatch (a : ArbState) (p : PlantState) : Prop :=
  p.isWateringActive = plantHolds a p.plantId

/-- System invariant: plant identities are fixed, the valve and pump
track the lease, and each plant's isWateringActive flag agrees with
lease ownership. -/
def SysInv (s : SysState) : Prop :=
  s.plant1.plantId = 1 ∧ s.plant2.plantId = 2 ∧ ArbInv s.arb ∧
    activeMatch s.arb s.plant1 ∧ activeMatch s.arb s.plant2

lemma plantHolds_none (a : ArbState) (pid : Nat) (h : a.lease = none) :
    plantHolds a pid = false := by
  simp [plantHolds, h]

lemma evalPlant_held (a : ArbState) (p : PlantState) (m : Nat) (r : Bool)
    (f : Option Forecast) (now : Nat) (l : PumpLease) (h : a.lease = some l) :
    (evalPlant a p m r f now).1 = a ∧
    (evalPlant a p m r f now).2.1.plantId = p.plantId ∧
    (evalPlant a p m r f now).2.1.lastWateredAt = p.lastWateredAt ∧
    (evalPlant a p m r f now).2.1.isWateringActive = p.isWateringActive := by
  cases hd : decideIrrigation (plantHolds a p.plantId) m r f now p.lastWateredAt with
  | Water => simp [evalPlant, hd, request, h]
  | Skip rsn => simp [evalPlant, hd]
  | AlreadyWatering => simp [evalPlant, hd]

lemma evalPlant_grant (a : ArbState) (p : PlantState) (m : Nat) (r : Bool)
    (f : Option Forecast) (now : Nat) (ha : a.lease = none)
    (hd : decideIrrigation false m r f now p.lastWateredAt = Decision.Water) :
    (evalPlant a p m r f now).1 =
      ⟨some ⟨p.plantId, now + WATER_PUMP_MAX_DURATION_MS⟩, true, some p.plantId⟩ ∧
    (evalPlant a p m r f now).2.2.2 =
      some (ReqResult.Granted ⟨p.plantId, now + WATER_PUMP_MAX_DURATION_MS⟩) ∧
    (evalPlant a p m r f now).2.1.plantId = p.plantId ∧
    (evalPlant a p m r f now).2.1.lastWateredAt = p.lastWateredAt ∧
    (evalPlant a p m r f now).2.1.isWateringActive = true ∧
    (evalPlant a p m r f now).2.2.1 = Decision.Water := by
  have hph : plantHolds a p.plantId = false := plantHolds_none a p.plantId ha
  simp [evalPlant, hph, hd, request, ha, min_self]

lemma evalPlant_water_busy (a : ArbState) (p : PlantState) (m : Nat) (r : Bool)
    (f : Option Forecast) (now : Nat) (l : PumpLease) (ha : a.lease = some l)
    (hd : decideIrrigation (plantHolds a p.plantId) m r f now p.lastWateredAt = Decision.Water) :
    (evalPlant a p m r f now).1 = a ∧
    (evalPlant a p m r f now).2.2.2 = some ReqResult.Busy ∧
    (evalPlant a p m r f now).2.2.1 = Decision.Water := by
  simp [evalPlant, hd, request, ha]

lemma evalPlant_noWater (a : ArbState) (p : PlantState) (m : Nat) (r : Bool)
    (f : Option Forecast) (now : Nat) (d : Decision)
    (hd : decideIrrigation (plantHolds a p.plantId) m r f now p.lastWateredAt = d)
    (hne : d ≠ Decision.Water) :
    (evalPlant a p m r f now).1 = a ∧
    (evalPlant a p m r f now).2.2.1 = d ∧
    (evalPlant a p m r f now).2.1.plantId = p.plantId ∧
    (evalPlant a p m r f now).2.1.lastWateredAt = p.lastWateredAt ∧
    (evalPlant a p m r f now).2.1.isWateringActive = p.isWateringActive := by
  cases d with
  | Water => exact absurd rfl hne
  | Skip rsn => simp [evalPlant, hd]
  | AlreadyWatering => simp [evalPlant, hd]

lemma serviceLeases_free (a : ArbState) (p1 p2 : PlantState) (d1 d2 : Bool) (now : Nat)
    (h : a.lease = none) :
    serviceLeases a p1 p2 d1 d2 now = (a, p1, p2, false) := by
  simp [serviceLeases, h]

lemma serviceLeases_timeout (a : ArbState) (p1 p2 : PlantState) (d1 d2 : Bool) (now : Nat)
    (l : PumpLease) (h : a.lease = some l) (hexp : l.expiry ≤ now) :
    serviceLeases a p1 p2 d1 d2 now =
      (⟨none, false, none⟩,
       (if l.plantId = 1 then markReleased p1 now else p1),
       (if l.plantId = 2 then markReleased p2 now else p2),
       true) := by
  simp [serviceLeases, h, hexp, releaseLease]

lemma serviceLeases_complete (a : ArbState) (p1 p2 : PlantState) (d1 d2 : Bool) (now : Nat)
    (l : PumpLease) (h : a.lease = some l) (hexp : ¬ l.expiry ≤ now)
    (hdone : ((decide (l.plantId = 1) && d1) || (decide (l.plantId = 2) && d2)) = true) :
    serviceLeases a p1 p2 d1 d2 now =
      (⟨none, false, none⟩,
       (if l.plantId = 1 then markReleased p1 now else p1),
       (if l.plantId = 2 then markReleased p2 now else p2),
       false) := by
  simp [serviceLeases, h, hexp, hdone, releaseLease]

lemma serviceLeases_keep (a : ArbState) (p1 p2 : PlantState) (d1 d2 : Bool) (now : Nat)
    (l : PumpLease) (h : a.lease = some l) (hexp : ¬ l.expiry ≤ now)
    (hdone : ((decide (l.plantId = 1) && d1) || (decide (l.plantId = 2) && d2)) = false) :
    serviceLeases a p1 p2 d1 d2 now = (a, p1, p2, false) := by
  simp [serviceLeases, h, hexp, hdone]

lemma evalPlant_inv (a : ArbState) (p q : PlantState) (m : Nat) (r : Bool)
    (f : Option Forecast) (now : Nat)
    (ha : ArbInv a) (hp : activeMatch a p) (hq : activeMatch a q)
    (hpq : q.plantId ≠ p.plantId) :
    ArbInv (evalPlant a p m r f now).1 ∧
    activeMatch (evalPlant a p m r f now).1 (evalPlant a p m r f now).2.1 ∧
    activeMatch (evalPlant a p m r f now).1 q ∧
    (evalPlant a p m r f now).2.1.plantId = p.plantId := by
  cases hl : a.lease with
  | some l =>
      obtain ⟨h1, h2, _h3, h4⟩ := evalPlant_held a p m r f now l hl
      refine ⟨?_, ?_, ?_, h2⟩
      · rw [h1]; exact ha
      · simp only [activeMatch, h1, h2, h4]; exact hp
      · rw [h1]; exact hq
  | none =>
      cases hd : decideIrrigation (plantHolds a p.plantId) m r f now p.lastWateredAt with
      | Water =>
          have hd2 : decideIrrigation false m r f now p.lastWateredAt = Decision.Water := by
            rwa [plantHolds_none a p.plantId hl] at hd
          obtain ⟨h1, _h2, h3, _h4, h5, _h6⟩ := evalPlant_grant a p m r f now hl hd2
          have hqa : q.isWateringActive = false := by
            rw [hq, plantHolds_none a q.plantId hl]
          refine ⟨?_, ?_, ?_, h3⟩
          · rw [h1]; simp [ArbInv]
          · simp only [activeMatch, h1, h3, h5]
            simp [plantHolds]
          · simp only [activeMatch, h1, hqa]
            simp [plantHolds, Ne.symm hpq]
      | Skip rsn =>
          obtain ⟨h1, _h2, h3, _h4, h5⟩ :=
            evalPlant_noWater a p m r f now (Decision.Skip rsn) hd (by simp)
          refine ⟨?_, ?_, ?_, h3⟩
          · rw [h1]; exact ha
          · simp only [activeMatch, h1, h3, h5]; exact hp
          · rw [h1]; exact hq
      | AlreadyWatering =>
          obtain ⟨h1, _h2, h3, _h4, h5⟩ :=
            evalPlant_noWater a p m r f now Decision.AlreadyWatering hd (by simp)
          refine ⟨?_, ?_, ?_, h3⟩
          · rw [h1]; exact ha
          · simp only [activeMatch, h1, h3, h5]; exact hp
          · rw [h1]; exact hq

lemma released_active (a : ArbState) (l : PumpLease) (p : PlantState) (pid : Nat) (now : Nat)
    (hl : a.lease = some l) (hid : p.plantId = pid) (hp : activeMatch a p) :
    activeMatch ⟨none, false, none⟩ (if l.plantId = pid then markReleased p now else p) ∧
    (if l.plantId = pid then markReleased p now else p).plantId = pid := by
  by_cases h : l.plantId = pid
  · simp [h, activeMatch, markReleased, plantHolds, hid]
  · have hact : p.isWateringActive = false := by
      rw [hp]; simp [plantHolds, hl, hid, h]
    simp [h, activeMatch, plantHolds, hact, hid]

lemma serviceLeases_inv (a : ArbState) (p1 p2 : PlantState) (d1 d2 : Bool) (now : Nat)
    (hid1 : p1.plantId = 1) (hid2 : p2.plantId = 2)
    (ha : ArbInv a) (hp1 : activeMatch a p1) (hp2 : activeMatch a p2) :
    ArbInv (serviceLeases a p1 p2 d1 d2 now).1 ∧
    activeMatch (serviceLeases a p1 p2 d1 d2 now).1 (serviceLeases a p1 p2 d1 d2 now).2.1 ∧
    activeMatch (serviceLeases a p1 p2 d1 d2 now).1 (serviceLeases a p1 p2 d1 d2 now).2.2.1 ∧
    (serviceLeases a p1 p2 d1 d2 now).2.1.plantId = 1 ∧
    (serviceLeases a p1 p2 d1 d2 now).2.2.1.plantId = 2 := by
  cases hl : a.lease with
  | none =>
      rw [serviceLeases_free a p1 p2 d1 d2 now hl]
      exact ⟨ha, hp1, hp2, hid1, hid2⟩
  | some l =>
      by_cases hexp : l.expiry ≤ now
      · rw [serviceLeases_timeout a p1 p2 d1 d2 now l hl hexp]
        obtain ⟨q1a, q1i⟩ := released_active a l p1 1 now hl hid1 hp1
        obtain ⟨q2a, q2i⟩ := released_active a l p2 2 now hl hid2 hp2
        exact ⟨by simp [ArbInv], q1a, q2a, q1i, q2i⟩
      · cases hdone : ((decide (l.plantId = 1) && d1) || (decide (l.plantId = 2) && d2)) with
        | true =>
            rw [serviceLeases_complete a p1 p2 d1 d2 now l hl hexp hdone]
            obtain ⟨q1a, q1i⟩ := released_active a l p1 1 now hl hid1 hp1
            obtain ⟨q2a, q2i⟩ := released_active a l p2 2 now hl hid2 hp2
            exact ⟨by simp [ArbInv], q1a, q2a, q1i, q2i⟩
        | false =>
            rw [serviceLeases_keep a p1 p2 d1 d2 now l hl hexp hdone]
            exact ⟨ha, hp1, hp2, hid1, hid2⟩

lemma sysTick_inv (s : SysState) (inp : TickInput) (h : SysInv s) : SysInv (sysTick s inp).1 := by
  obtain ⟨h1, h2, ha, m1, m2⟩ := h
  have hne21 : s.plant2.plantId ≠ s.plant1.plantId := by rw [h1, h2]; decide
  obtain ⟨ha1, mp1, mq2, hid1⟩ :=
    evalPlant_inv s.arb s.plant1 s.plant2 inp.moisture1 inp.isRaining inp.forecast inp.now
      ha m1 m2 hne21
  have hne12 :
      (evalPlant s.arb s.plant1 inp.moisture1 inp.isRaining inp.forecast inp.now).2.1.plantId ≠
        s.plant2.plantId := by
    rw [hid1, h1, h2]; decide
  obtain ⟨ha2, mp2, mq1, hid2⟩ :=
    evalPlant_inv (evalPlant s.arb s.plant1 inp.moisture1 inp.isRaining inp.forecast inp.now).1
      s.plant2
      (evalPlant s.arb s.plant1 inp.moisture1 inp.isRaining inp.forecast inp.now).2.1
      inp.moisture2 inp.isRaining inp.forecast inp.now ha1 mq2 mp1 hne12
  obtain ⟨hsa, hsp1, hsp2, hsid1, hsid2⟩ :=
    serviceLeases_inv
      (evalPlant (evalPlant s.arb s.plant1 inp.moisture1 inp.isRaining inp.forecast inp.now).1
        s.plant2 inp.moisture2 inp.isRaining inp.forecast inp.now).1
      (evalPlant s.arb s.plant1 inp.moisture1 inp.isRaining inp.forecast inp.now).2.1
      (evalPlant (evalPlant s.arb s.plant1 inp.moisture1 inp.isRaining inp.forecast inp.now).1
        s.plant2 inp.moisture2 inp.isRaining inp.forecast inp.now).2.1
      inp.done1 inp.done2 inp.now (by rw [hid1, h1]) (by rw [hid2, h2]) ha2 mq1 mp2
  exact ⟨hsid1, hsid2, hsa, hsp1, hsp2⟩

lemma sysFold_inv (s : SysState) (inps : List TickInput) (h : SysInv s) :
    SysInv (inps.foldl (fun t i => (sysTick t i).1) s) := by
  induction inps generalizing s with
  | nil => exact h
  | cons i rest ih => exact ih _ (sysTick_inv s i h)

lemma SysInv_init : SysInv SysState.init := by
  refine ⟨rfl, rfl, ⟨rfl, rfl⟩, ?_, ?_⟩ <;> rfl

lemma sysRun_inv (inps : List TickInput) : SysInv (sysRun inps) :=
  sysFold_inv SysState.init inps SysInv_init

/-- C1: critical-dry safety floor.  For every moisture reading strictly
below CRITICAL_DRY_THRESHOLD, once the engine reaches the moisture rules
(no lease held by this plant and cooldown elapsed, the two
higher-precedence steps of the policy), the decision is Water for every
rain-sensor state and every forecast, known or unknown. -/
theorem critical_dry_floor (m : Nat) (hm : m < CRITICAL_DRY_THRESHOLD)
    (isRaining : Bool) (forecast : Option Forecast) (now : Nat) (lastWateredAt : Option Nat)
    (hc : inCooldown now lastWateredAt = false) :
    decideIrrigation false m isRaining forecast now lastWateredAt = Decision.Water := by
  simp [decideIrrigation, hc, hm]

/-- Witness for C1 at moisture 10, rain sensor on, heavy-rain forecast. -/
theorem critical_dry_floor_witness :
    decideIrrigation false 10 true (some ⟨50, 50⟩) 0 none = Decision.Water :=
  critical_dry_floor 10 (by decide) true (some ⟨50, 50⟩) 0 none (by decide)

/-- C4: cooldown hard floor.  With lastWateredAt stamped at completion
time T (the model stamps it on every lease release), every tick strictly
before T plus MIN_TIME_BETWEEN_WATERING_MS yields a decision that is not
Water, whatever the moisture (even 0), rain and forecast: it is
Skip Cooldown when no lease is held and AlreadyWatering while one is. -/
theorem cooldown_hard_floor (leaseHeld : Bool) (m : Nat) (isRaining : Bool)
    (forecast : Option Forecast) (now T : Nat)
    (hT : now < T + MIN_TIME_BETWEEN_WATERING_MS) :
    decideIrrigation leaseHeld m isRaining forecast now (some T) ≠ Decision.Water ∧
    (leaseHeld = false →
      decideIrrigation leaseHeld m isRaining forecast now (some T) =
        Decision.Skip SkipReason.Cooldown) ∧
    (leaseHeld = true →
      decideIrrigation leaseHeld m isRaining forecast now (some T) =
        Decision.AlreadyWatering) := by
  have hc : inCooldown now (some T) = true := by
    simp only [inCooldown, MIN_TIME_BETWEEN_WATERING_MS, decide_eq_true_eq]
    simp only [MIN_TIME_BETWEEN_WATERING_MS] at hT
    omega
  cases leaseHeld <;> simp [decideIrrigation, hc]

/-- Witness for C4: one tick after a completion at time 0, with moisture reported as 0. -/
theorem cooldown_hard_floor_witness :
    decideIrrigation false 0 false none 10000 (some 0) = Decision.Skip SkipReason.Cooldown :=
  (cooldown_hard_floor false 0 false none 10000 0 (by decide)).2.1 rfl

/-- C5 counterexample: scenario B as written (moisture 35, known
forecast with rain3hMm 5, rain sensor off, no lease, cooldown elapsed)
does not produce Skip RainImminent3h, because step 4 requires the
moisture to be below SAFE_SKIP_THRESHOLD = 30 and 35 is not; the policy
falls through to Skip Sufficient. -/
theorem scenario_b_counterexample :
    decideIrrigation false 35 false (some ⟨5, 0⟩) 0 none =
      Decision.Skip SkipReason.Sufficient ∧
    decideIrrigation false 35 false (some ⟨5, 0⟩) 0 none ≠
      Decision.Skip SkipReason.RainImminent3h := by
  constructor <;> decide

/-- C5 amended: scenario B with a moisture reading actually inside step
4's band, at or above CRITICAL_DRY_THRESHOLD and below
SAFE_SKIP_THRESHOLD (for example 25 instead of 35): with a known
forecast whose rain3hMm is at least RAIN_THRESHOLD_3H_MM, no lease held
and cooldown elapsed, the decision is Skip RainImminent3h. -/
theorem scenario_b_amended (m : Nat) (h1 : CRITICAL_DRY_THRESHOLD ≤ m)
    (h2 : m < SAFE_SKIP_THRESHOLD) (isRaining : Bool) (f : Forecast)
    (h3 : RAIN_THRESHOLD_3H_MM ≤ f.rain3hMm) (now : Nat) (lastWateredAt : Option Nat)
    (hc : inCooldown now lastWateredAt = false) :
    decideIrrigation false m isRaining (some f) now lastWateredAt =
      Decision.Skip SkipReason.RainImminent3h := by
  have h4 : ¬ m < CRITICAL_DRY_THRESHOLD := not_lt.mpr h1
  simp [decideIrrigation, hc, h2, h4, forecastSkip3h, h3]

/-- Witness for the amended C5 at moisture 25 with rain3hMm 5. -/
theorem scenario_b_amended_witness :
    decideIrrigation false 25 false (some ⟨5, 0⟩) 0 none =
      Decision.Skip SkipReason.RainImminent3h :=
  scenario_b_amended 25 (by decide) (by decide) false ⟨5, 0⟩ (by decide) 0 none (by decide)

/-- C10: the configured moisture constants of
src/PlantCareSystem/config.h are ordered CRITICAL_MOISTURE_LEVEL <
CRITICAL_DRY_THRESHOLD < SAFE_SKIP_THRESHOLD = SOIL_MOISTURE_THRESHOLD_DRY
< PREVENTIVE_SKIP_THRESHOLD; hence every reading below the critical
alert level is below the unconditional-Water floor, and the moisture
band eligible for the 3-hour rain skip coincides with the band step 7
would otherwise water. -/
theorem threshold_ordering :
    CRITICAL_MOISTURE_LEVEL < CRITICAL_DRY_THRESHOLD ∧
    CRITICAL_DRY_THRESHOLD < SAFE_SKIP_THRESHOLD ∧
    SAFE_SKIP_THRESHOLD = SOIL_MOISTURE_THRESHOLD_DRY ∧
    SOIL_MOISTURE_THRESHOLD_DRY < PREVENTIVE_SKIP_THRESHOLD ∧
    (∀ m : Nat, m < CRITICAL_MOISTURE_LEVEL → m < CRITICAL_DRY_THRESHOLD) ∧
    (∀ m : Nat,
      (CRITICAL_DRY_THRESHOLD ≤ m ∧ m < SAFE_SKIP_THRESHOLD) ↔
        (CRITICAL_DRY_THRESHOLD ≤ m ∧ m < SOIL_MOISTURE_THRESHOLD_DRY)) := by
  refine ⟨by decide, by decide, by decide, by decide, ?_, ?_⟩
  · intro m hm
    simp only [CRITICAL_MOISTURE_LEVEL] at hm
    simp only [CRITICAL_DRY_THRESHOLD]
    omega
  · intro m
    simp only [SAFE_SKIP_THRESHOLD, SOIL_MOISTURE_THRESHOLD_DRY]

/-- Witness for C10: a reading of 10 is below the alert level and hence below the Water floor. -/
theorem threshold_ordering_witness : (10 : Nat) < CRITICAL_DRY_THRESHOLD :=
  threshold_ordering.2.2.2.2.1 10 (by decide)

/-- C2: pump exclusivity.  In every state reachable from the initial
system state (the arbitration state holds at most one outstanding lease
by construction), isWateringActive is true for at most one of the two
plants, the lease holder's plantId is the valve that is open, the
active plant is exactly the lease holder, and with no lease neither
plant is active, the pump is stopped and no valve is open. -/
theorem pump_exclusivity_invariant (inps : List TickInput) :
    ¬((sysRun inps).plant1.isWateringActive = true ∧
        (sysRun inps).plant2.isWateringActive = true) ∧
    (∀ l : PumpLease, (sysRun inps).arb.lease = some l →
        (sysRun inps).arb.openValve = some l.plantId ∧
        (sysRun inps).arb.pumpRunning = true ∧
        ((sysRun inps).plant1.isWateringActive = true ↔ l.plantId = 1) ∧
        ((sysRun inps).plant2.isWateringActive = true ↔ l.plantId = 2)) ∧
    ((sysRun inps).arb.lease = none →
        (sysRun inps).plant1.isWateringActive = false ∧
        (sysRun inps).plant2.isWateringActive = false ∧
        (sysRun inps).arb.pumpRunning = false ∧
        (sysRun inps).arb.openValve = none) := by
  obtain ⟨h1, h2, ha, m1, m2⟩ := sysRun_inv inps
  refine ⟨?_, ?_, ?_⟩
  · rintro ⟨w1, w2⟩
    rw [m1, h1] at w1
    rw [m2, h2] at w2
    cases hl : (sysRun inps).arb.lease with
    | none => rw [plantHolds_none _ _ hl] at w1; exact Bool.false_ne_true w1
    | some l =>
        simp only [plantHolds, hl, decide_eq_true_eq] at w1 w2
        rw [w1] at w2
        exact (by decide : ¬ (1 : Nat) = 2) w2
  · intro l hl
    simp only [ArbInv, hl] at ha
    refine ⟨ha.1, ha.2, ?_, ?_⟩
    · rw [m1, h1]; simp [plantHolds, hl]
    · rw [m2, h2]; simp [plantHolds, hl]
  · intro hl
    simp only [ArbInv, hl] at ha
    refine ⟨?_, ?_, ha.2, ha.1⟩
    · rw [m1, plantHolds_none _ _ hl]
    · rw [m2, plantHolds_none _ _ hl]

/-- Witness for C2 on a run where plant 1 holds the lease: the open valve is plant 1's. -/
theorem pump_exclusivity_invariant_witness :
    (sysRun [⟨0, 10, 50, false, none, false, false⟩]).arb.openValve = some 1 :=
  ((pump_exclusivity_invariant [⟨0, 10, 50, false, none, false, false⟩]).2.1
    ⟨1, 30000⟩ (by decide)).1

/-- C3: safety timeout ceiling.  A granted lease's expiry is stamped at
most WATER_PUMP_MAX_DURATION_MS past the request time whatever duration
was asked for; the arbitration tick at any time at or past the expiry
forcibly stops the pump, closes the valve, releases the lease and
reports SafetyTimeout; and a whole system tick at such a time clears the
lease the same way with the timeout flagged, without the owning decision
logic ever calling release. -/
theorem safety_timeout_ceiling :
    (∀ (a : ArbState) (pid dur now : Nat) (a2 : ArbState) (l : PumpLease),
        request a pid dur now = (a2, ReqResult.Granted l) →
        l.expiry ≤ now + WATER_PUMP_MAX_DURATION_MS ∧ a2.lease = some l) ∧
    (∀ (a : ArbState) (l : PumpLease) (now : Nat),
        a.lease = some l → l.expiry ≤ now →
        arbTick a now = (⟨none, false, none⟩, some Outcome.SafetyTimeout)) ∧
    (∀ (s : SysState) (inp : TickInput) (l : PumpLease),
        s.arb.lease = some l → l.expiry ≤ inp.now →
        (sysTick s inp).1.arb = ⟨none, false, none⟩ ∧
        (sysTick s inp).2.timeoutFired = true) := by
  refine ⟨?_, ?_, ?_⟩
  · intro a pid dur now a2 l h
    cases hl : a.lease with
    | some x => simp [request, hl] at h
    | none =>
        simp only [request, hl, Prod.mk.injEq, ReqResult.Granted.injEq] at h
        obtain ⟨h1, h2⟩ := h
        subst h2
        constructor
        · show now + min dur WATER_PUMP_MAX_DURATION_MS ≤ now + WATER_PUMP_MAX_DURATION_MS
          exact Nat.add_le_add_left (min_le_right _ _) now
        · rw [← h1]
  · intro a l now hl hexp
    simp [arbTick, hl, hexp, releaseLease]
  · intro s inp l hl hexp
    have e1 :=
      (evalPlant_held s.arb s.plant1 inp.moisture1 inp.isRaining inp.forecast inp.now l hl).1
    have hl1 :
        (evalPlant s.arb s.plant1 inp.moisture1 inp.isRaining inp.forecast inp.now).1.lease =
          some l := by rw [e1]; exact hl
    have e2 :=
      (evalPlant_held
        (evalPlant s.arb s.plant1 inp.moisture1 inp.isRaining inp.forecast inp.now).1
        s.plant2 inp.moisture2 inp.isRaining inp.forecast inp.now l hl1).1
    have hl2 :
        (evalPlant
          (evalPlant s.arb s.plant1 inp.moisture1 inp.isRaining inp.forecast inp.now).1
          s.plant2 inp.moisture2 inp.isRaining inp.forecast inp.now).1.lease = some l := by
      rw [e2]; exact hl1
    constructor
    · simp only [sysTick]
      rw [serviceLeases_timeout _ _ _ inp.done1 inp.done2 inp.now l hl2 hexp]
    · simp only [sysTick]
      rw [serviceLeases_timeout _ _ _ inp.done1 inp.done2 inp.now l hl2 hexp]

/-- Witness for C3: a request for 100 times the ceiling is clamped, an
expired lease is forcibly released by the arbitration tick, and a system
tick at the expiry clears the lease with the timeout flag. -/
theorem safety_timeout_ceiling_witness :
    ((3000000 : Nat) + 0 ≤ 0 + WATER_PUMP_MAX_DURATION_MS → False) ∧
    (PumpLease.mk 1 30000).expiry ≤ 0 + WATER_PUMP_MAX_DURATION_MS ∧
    arbTick ⟨some ⟨1, 30000⟩, true, some 1⟩ 30000 =
      (⟨none, false, none⟩, some Outcome.SafetyTimeout) ∧
    (sysTick ⟨⟨1, 10, none, true, 0⟩, ⟨2, 50, none, false, 0⟩, ⟨some ⟨1, 30000⟩, true, some 1⟩⟩
        ⟨30000, 10, 50, false, none, false, false⟩).2.timeoutFired = true :=
  ⟨fun h => by simp [WATER_PUMP_MAX_DURATION_MS] at h,
   (safety_timeout_ceiling.1 ArbState.init 1 3000000 0
      ⟨some ⟨1, 30000⟩, true, some 1⟩ ⟨1, 30000⟩ (by decide)).1,
   safety_timeout_ceiling.2.1 ⟨some ⟨1, 30000⟩, true, some 1⟩ ⟨1, 30000⟩ 30000 rfl (by decide),
   (safety_timeout_ceiling.2.2
      ⟨⟨1, 10, none, true, 0⟩, ⟨2, 50, none, false, 0⟩, ⟨some ⟨1, 30000⟩, true, some 1⟩⟩
      ⟨30000, 10, 50, false, none, false, false⟩ ⟨1, 30000⟩ rfl (by decide)).2⟩

/-- C6: deterministic same-tick pump arbitration.  Within one tick the
plants are evaluated plant 1 first: when no lease is outstanding and
both plants independently decide Water, plant 1 is granted the lease and
plant 2 receives Busy.  And when plant 1 holds the lease and its
completion signal arrives on a tick (releasing the lease in that tick's
service phase), then on the next tick plant 1 sits in cooldown while
plant 2, still deciding Water by plain re-evaluation with no queue,
acquires the lease. -/
theorem same_tick_arbitration :
    (∀ (s : SysState) (inp : TickInput),
        s.plant1.plantId = 1 → s.plant2.plantId = 2 → s.arb.lease = none →
        decideIrrigation false inp.moisture1 inp.isRaining inp.forecast inp.now
          s.plant1.lastWateredAt = Decision.Water →
        decideIrrigation false inp.moisture2 inp.isRaining inp.forecast inp.now
          s.plant2.lastWateredAt = Decision.Water →
        (sysTick s inp).2.result1 =
          some (ReqResult.Granted ⟨1, inp.now + WATER_PUMP_MAX_DURATION_MS⟩) ∧
        (sysTick s inp).2.result2 = some ReqResult.Busy) ∧
    (∀ (s : SysState) (inp inp2 : TickInput) (e : Nat),
        s.plant1.plantId = 1 → s.plant2.plantId = 2 →
        s.arb.lease = some ⟨1, e⟩ → inp.now < e → inp.done1 = true →
        inp2.now < inp.now + MIN_TIME_BETWEEN_WATERING_MS →
        decideIrrigation false inp2.moisture2 inp2.isRaining inp2.forecast inp2.now
          s.plant2.lastWateredAt = Decision.Water →
        (sysTick (sysTick s inp).1 inp2).2.decision1 = Decision.Skip SkipReason.Cooldown ∧
        (sysTick (sysTick s inp).1 inp2).2.result2 =
          some (ReqResult.Granted ⟨2, inp2.now + WATER_PUMP_MAX_DURATION_MS⟩)) := by
  constructor
  · intro s inp h1 h2 hl hd1 hd2
    obtain ⟨g1a, g1r, _g1i, _g1w, _g1act, _g1d⟩ :=
      evalPlant_grant s.arb s.plant1 inp.moisture1 inp.isRaining inp.forecast inp.now hl hd1
    have hl1 :
        (evalPlant s.arb s.plant1 inp.moisture1 inp.isRaining inp.forecast inp.now).1.lease =
          some ⟨s.plant1.plantId, inp.now + WATER_PUMP_MAX_DURATION_MS⟩ := by rw [g1a]
    have hph2 :
        plantHolds (evalPlant s.arb s.plant1 inp.moisture1 inp.isRaining inp.forecast inp.now).1
          s.plant2.plantId = false := by
      simp [plantHolds, hl1, h1, h2]
    have hd2a :
        decideIrrigation
          (plantHolds (evalPlant s.arb s.plant1 inp.moisture1 inp.isRaining inp.forecast inp.now).1
            s.plant2.plantId)
          inp.moisture2 inp.isRaining inp.forecast inp.now s.plant2.lastWateredAt =
            Decision.Water := by
      rw [hph2]; exact hd2
    obtain ⟨_b1, b2, _b3⟩ :=
      evalPlant_water_busy
        (evalPlant s.arb s.plant1 inp.moisture1 inp.isRaining inp.forecast inp.now).1
        s.plant2 inp.moisture2 inp.isRaining inp.forecast inp.now
        ⟨s.plant1.plantId, inp.now + WATER_PUMP_MAX_DURATION_MS⟩ hl1 hd2a
    constructor
    · simp only [sysTick]
      rw [g1r, h1]
    · simp only [sysTick]
      rw [b2]
  · intro s inp inp2 e h1 h2 hl hnow hdone1 hcool hd2
    obtain ⟨e1a, _e1i, _e1w, _e1act⟩ :=
      evalPlant_held s.arb s.plant1 inp.moisture1 inp.isRaining inp.forecast inp.now ⟨1, e⟩ hl
    have hl1 :
        (evalPlant s.arb s.plant1 inp.moisture1 inp.isRaining inp.forecast inp.now).1.lease =
          some ⟨1, e⟩ := by rw [e1a]; exact hl
    obtain ⟨e2a, e2i, e2w, _e2act⟩ :=
      evalPlant_held (evalPlant s.arb s.plant1 inp.moisture1 inp.isRaining inp.forecast inp.now).1
        s.plant2 inp.moisture2 inp.isRaining inp.forecast inp.now ⟨1, e⟩ hl1
    have hl2 :
        (evalPlant (evalPlant s.arb s.plant1 inp.moisture1 inp.isRaining inp.forecast inp.now).1
          s.plant2 inp.moisture2 inp.isRaining inp.forecast inp.now).1.lease = some ⟨1, e⟩ := by
      rw [e2a]; exact hl1
    have hexp : ¬ (PumpLease.mk 1 e).expiry ≤ inp.now := not_le.mpr hnow
    have hdcond :
        ((decide ((PumpLease.mk 1 e).plantId = 1) && inp.done1) ||
          (decide ((PumpLease.mk 1 e).plantId = 2) && inp.done2)) = true := by
      simp [hdone1]
    have hs1 : (sysTick s inp).1 =
        ⟨markReleased
            (evalPlant s.arb s.plant1 inp.moisture1 inp.isRaining inp.forecast inp.now).2.1
            inp.now,
          (evalPlant (evalPlant s.arb s.plant1 inp.moisture1 inp.isRaining inp.forecast inp.now).1
            s.plant2 inp.moisture2 inp.isRaining inp.forecast inp.now).2.1,
          ⟨none, false, none⟩⟩ := by
      simp only [sysTick]
      rw [serviceLeases_complete _ _ _ inp.done1 inp.done2 inp.now ⟨1, e⟩ hl2 hexp hdcond]
      simp
    rw [hs1]
    set p1m :=
      markReleased
        (evalPlant s.arb s.plant1 inp.moisture1 inp.isRaining inp.forecast inp.now).2.1 inp.now
      with hp1m
    set p2x :=
      (evalPlant (evalPlant s.arb s.plant1 inp.moisture1 inp.isRaining inp.forecast inp.now).1
        s.plant2 inp.moisture2 inp.isRaining inp.forecast inp.now).2.1 with hp2x
    have hc : inCooldown inp2.now (some inp.now) = true := by
      simp only [inCooldown, decide_eq_true_eq]
      simp only [MIN_TIME_BETWEEN_WATERING_MS] at hcool ⊢
      omega
    have hlwm : p1m.lastWateredAt = some inp.now := rfl
    have hdec1 :
        decideIrrigation (plantHolds (⟨none, false, none⟩ : ArbState) p1m.plantId)
          inp2.moisture1 inp2.isRaining inp2.forecast inp2.now p1m.lastWateredAt =
          Decision.Skip SkipReason.Cooldown := by
      rw [plantHolds_none _ _ rfl, hlwm]
      simp [decideIrrigation, hc]
    obtain ⟨f1a, f1d, _f1i, _f1w, _f1act⟩ :=
      evalPlant_noWater (⟨none, false, none⟩ : ArbState) p1m inp2.moisture1 inp2.isRaining
        inp2.forecast inp2.now (Decision.Skip SkipReason.Cooldown) hdec1 (by simp)
    have hlf : (evalPlant (⟨none, false, none⟩ : ArbState) p1m inp2.moisture1 inp2.isRaining
        inp2.forecast inp2.now).1.lease = none := by rw [f1a]
    have hd2x :
        decideIrrigation false inp2.moisture2 inp2.isRaining inp2.forecast inp2.now
          p2x.lastWateredAt = Decision.Water := by
      rw [hp2x, e2w]; exact hd2
    obtain ⟨_g2a, g2r, _g2i, _g2w, _g2act, _g2d⟩ :=
      evalPlant_grant
        (evalPlant (⟨none, false, none⟩ : ArbState) p1m inp2.moisture1 inp2.isRaining
          inp2.forecast inp2.now).1
        p2x inp2.moisture2 inp2.isRaining inp2.forecast inp2.now hlf hd2x
    constructor
    · simp only [sysTick]
      rw [f1d]
    · simp only [sysTick]
      rw [g2r, hp2x, e2i, h2]

/-- Witness for C6: a concrete contended tick, then a completion tick and the retry tick. -/
theorem same_tick_arbitration_witness :
    ((sysTick ⟨⟨1, 50, none, false, 0⟩, ⟨2, 50, none, false, 0⟩, ⟨none, false, none⟩⟩
        ⟨0, 10, 10, false, none, false, false⟩).2.result1 =
      some (ReqResult.Granted ⟨1, 30000⟩) ∧
     (sysTick ⟨⟨1, 50, none, false, 0⟩, ⟨2, 50, none, false, 0⟩, ⟨none, false, none⟩⟩
        ⟨0, 10, 10, false, none, false, false⟩).2.result2 = some ReqResult.Busy) ∧
    (sysTick (sysTick ⟨⟨1, 10, none, true, 0⟩, ⟨2, 10, none, false, 0⟩,
          ⟨some ⟨1, 30000⟩, true, some 1⟩⟩
        ⟨10000, 10, 10, false, none, true, false⟩).1
      ⟨20000, 10, 10, false, none, false, false⟩).2.result2 =
      some (ReqResult.Granted ⟨2, 50000⟩) :=
  ⟨same_tick_arbitration.1
      ⟨⟨1, 50, none, false, 0⟩, ⟨2, 50, none, false, 0⟩, ⟨none, false, none⟩⟩
      ⟨0, 10, 10, false, none, false, false⟩ rfl rfl rfl (by decide) (by decide),
   (same_tick_arbitration.2
      ⟨⟨1, 10, none, true, 0⟩, ⟨2, 10, none, false, 0⟩, ⟨some ⟨1, 30000⟩, true, some 1⟩⟩
      ⟨10000, 10, 10, false, none, true, false⟩
      ⟨20000, 10, 10, false, none, false, false⟩ 30000
      rfl rfl rfl (by decide) rfl (by decide) (by decide)).2⟩

lemma calibrate_eq (r d w : ℤ) :
    calibrate r d w =
      (((min (max r (min d w)) (max d w) : ℤ) : ℚ) - (d : ℚ)) * 100 / ((w : ℚ) - (d : ℚ)) :=
  rfl

lemma interp_bounds (d w c : ℚ) (hdw : d ≠ w) (h1 : min d w ≤ c) (h2 : c ≤ max d w) :
    0 ≤ (c - d) * 100 / (w - d) ∧ (c - d) * 100 / (w - d) ≤ 100 := by
  rcases lt_or_gt_of_ne hdw with h | h
  · rw [min_eq_left h.le] at h1
    rw [max_eq_right h.le] at h2
    have hden : 0 < w - d := sub_pos.mpr h
    constructor
    · exact div_nonneg (mul_nonneg (sub_nonneg.mpr h1) (by norm_num)) hden.le
    · rw [div_le_iff₀ hden]
      linarith
  · rw [min_eq_right h.le] at h1
    rw [max_eq_left h.le] at h2
    have hden : w - d < 0 := sub_neg.mpr h
    constructor
    · rw [div_nonneg_iff]
      right
      constructor
      · nlinarith
      · linarith
    · rw [div_le_iff_of_neg hden]
      linarith

/-- C7: Calibration Mapper contract.  For every raw reading and every
pair of distinct calibration points, whatever their polarity, the result
lies in 0 to 100, the dry point maps to 0 and the wet point to 100, a
raw value inside the interval is interpolated unclamped, and a raw value
outside it is given the nearer endpoint's value, never extrapolated. -/
theorem calibrate_contract (rawValue dryValue wetValue : ℤ) (hdw : dryValue ≠ wetValue) :
    0 ≤ calibrate rawValue dryValue wetValue ∧
    calibrate rawValue dryValue wetValue ≤ 100 ∧
    calibrate dryValue dryValue wetValue = 0 ∧
    calibrate wetValue dryValue wetValue = 100 ∧
    (min dryValue wetValue ≤ rawValue → rawValue ≤ max dryValue wetValue →
      calibrate rawValue dryValue wetValue =
        ((rawValue : ℚ) - (dryValue : ℚ)) * 100 / ((wetValue : ℚ) - (dryValue : ℚ))) ∧
    (rawValue ≤ min dryValue wetValue →
      calibrate rawValue dryValue wetValue =
        calibrate (min dryValue wetValue) dryValue wetValue) ∧
    (max dryValue wetValue ≤ rawValue →
      calibrate rawValue dryValue wetValue =
        calibrate (max dryValue wetValue) dryValue wetValue) := by
  have hdwQ : (dryValue : ℚ) ≠ (wetValue : ℚ) := by exact_mod_cast hdw
  have hle1 : min dryValue wetValue ≤
      min (max rawValue (min dryValue wetValue)) (max dryValue wetValue) :=
    le_min (le_max_right _ _) min_le_max
  have hle2 : min (max rawValue (min dryValue wetValue)) (max dryValue wetValue) ≤
      max dryValue wetValue := min_le_right _ _
  have hQ1 : min (dryValue : ℚ) (wetValue : ℚ) ≤
      ((min (max rawValue (min dryValue wetValue)) (max dryValue wetValue) : ℤ) : ℚ) := by
    exact_mod_cast hle1
  have hQ2 : ((min (max rawValue (min dryValue wetValue)) (max dryValue wetValue) : ℤ) : ℚ) ≤
      max (dryValue : ℚ) (wetValue : ℚ) := by
    exact_mod_cast hle2
  obtain ⟨hb1, hb2⟩ := interp_bounds (dryValue : ℚ) (wetValue : ℚ) _ hdwQ hQ1 hQ2
  refine ⟨?_, ?_, ?_, ?_, ?_, ?_, ?_⟩
  · rw [calibrate_eq]; exact hb1
  · rw [calibrate_eq]; exact hb2
  · rw [calibrate_eq, max_eq_left (min_le_left dryValue wetValue),
        min_eq_left (le_max_left dryValue wetValue)]
    simp
  · rw [calibrate_eq, max_eq_left (min_le_right dryValue wetValue),
        min_eq_left (le_max_right dryValue wetValue), mul_comm, mul_div_assoc,
        div_self (sub_ne_zero.mpr (Ne.symm hdwQ)), mul_one]
  · intro hr1 hr2
    rw [calibrate_eq, max_eq_left hr1, min_eq_left hr2]
  · intro hr
    rw [calibrate_eq rawValue, calibrate_eq (min dryValue wetValue), max_eq_right hr, max_self]
  · intro hr
    rw [calibrate_eq rawValue, calibrate_eq (max dryValue wetValue),
        max_eq_left (le_trans min_le_max hr), min_eq_right hr,
        max_eq_left min_le_max, min_self]

/-- Witness for C7 with the calibrated sensor constants of src/PlantCareSystem/config.h
(dry reads higher than wet on this sensor). -/
theorem calibrate_contract_witness :
    0 ≤ calibrate 300 SOIL_SENSOR_DRY_VALUE SOIL_SENSOR_WET_VALUE ∧
    calibrate 300 SOIL_SENSOR_DRY_VALUE SOIL_SENSOR_WET_VALUE ≤ 100 ∧
    calibrate SOIL_SENSOR_DRY_VALUE SOIL_SENSOR_DRY_VALUE SOIL_SENSOR_WET_VALUE = 0 ∧
    calibrate SOIL_SENSOR_WET_VALUE SOIL_SENSOR_DRY_VALUE SOIL_SENSOR_WET_VALUE = 100 :=
  ⟨(calibrate_contract 300 SOIL_SENSOR_DRY_VALUE SOIL_SENSOR_WET_VALUE (by decide)).1,
   (calibrate_contract 300 SOIL_SENSOR_DRY_VALUE SOIL_SENSOR_WET_VALUE (by decide)).2.1,
   (calibrate_contract 300 SOIL_SENSOR_DRY_VALUE SOIL_SENSOR_WET_VALUE (by decide)).2.2.1,
   (calibrate_contract 300 SOIL_SENSOR_DRY_VALUE SOIL_SENSOR_WET_VALUE (by decide)).2.2.2.1⟩

lemma decide_none_eq_local (leaseHeld : Bool) (m : Nat) (r : Bool) (now : Nat)
    (lw : Option Nat) :
    decideIrrigation leaseHeld m r none now lw = decideLocal leaseHeld m r now lw := by
  simp [decideIrrigation, decideLocal, forecastSkip3h, forecastSkip6h]

lemma decideLocal_cases (leaseHeld : Bool) (m : Nat) (r : Bool) (now : Nat) (lw : Option Nat) :
    decideLocal leaseHeld m r now lw = Decision.AlreadyWatering ∨
    decideLocal leaseHeld m r now lw = Decision.Skip SkipReason.Cooldown ∨
    decideLocal leaseHeld m r now lw = Decision.Water ∨
    decideLocal leaseHeld m r now lw = Decision.Skip SkipReason.RainDetectedNow ∨
    decideLocal leaseHeld m r now lw = Decision.Skip SkipReason.Sufficient := by
  unfold decideLocal
  split
  · exact Or.inl rfl
  · split
    · exact Or.inr (Or.inl rfl)
    · split
      · exact Or.inr (Or.inr (Or.inl rfl))
      · split
        · exact Or.inr (Or.inr (Or.inr (Or.inl rfl)))
        · split
          · exact Or.inr (Or.inr (Or.inl rfl))
          · exact Or.inr (Or.inr (Or.inr (Or.inr rfl)))

/-- C8: unknown or stale forecast degradation.  A missing snapshot, or
one older than one refresh interval, yields an unknown forecast; with an
unknown forecast the decision coincides with the policy restricted to
the local sensor-driven rules, so the two forecast-dependent skips can
never fire; the engine is a total function and never blocks on a
snapshot. -/
theorem stale_forecast_degradation :
    (∀ now : Nat, effectiveForecast none now = none) ∧
    (∀ (snap : ForecastSnapshot) (now : Nat),
        WEATHER_UPDATE_INTERVAL_MS < now - snap.fetchedAt →
        effectiveForecast (some snap) now = none) ∧
    (∀ (leaseHeld : Bool) (m : Nat) (r : Bool) (now : Nat) (lw : Option Nat),
        decideIrrigation leaseHeld m r none now lw = decideLocal leaseHeld m r now lw ∧
        decideIrrigation leaseHeld m r none now lw ≠
          Decision.Skip SkipReason.RainImminent3h ∧
        decideIrrigation leaseHeld m r none now lw ≠
          Decision.Skip SkipReason.RainExpected6h) := by
  refine ⟨fun now => rfl, ?_, ?_⟩
  · intro snap now h
    simp [effectiveForecast, h]
  · intro leaseHeld m r now lw
    have heq := decide_none_eq_local leaseHeld m r now lw
    refine ⟨heq, ?_, ?_⟩ <;> rw [heq] <;>
      rcases decideLocal_cases leaseHeld m r now lw with h | h | h | h | h <;> simp [h]

/-- Witness for C8: a snapshot two hours old is stale, and the unknown-forecast
decision matches the local policy at a concrete input. -/
theorem stale_forecast_degradation_witness :
    effectiveForecast (some ⟨5, 5, 0⟩) 7200000 = none ∧
    decideIrrigation false 25 false none 0 none = decideLocal false 25 false 0 none :=
  ⟨stale_forecast_degradation.2.1 ⟨5, 5, 0⟩ 7200000 (by decide),
   (stale_forecast_degradation.2.2 false 25 false 0 none).1⟩

lemma shadeChanges_shaded_zero (band : Nat) :
    ∀ l : List Nat, (∀ x ∈ l, LUX_THRESHOLD_HIGH - band ≤ x) → shadeChanges band true l = 0 := by
  intro l
  induction l with
  | nil => intro _; rfl
  | cons x xs ih =>
      intro h
      have hx : LUX_THRESHOLD_HIGH - band ≤ x := h x (List.mem_cons_self x xs)
      have hstep : shadeStep band true x = true := by
        simp [shadeStep, not_lt.mpr hx]
      simpa [shadeChanges, hstep] using ih (fun y hy => h y (List.mem_cons_of_mem x hy))

lemma shadeChanges_from_exposed (band : Nat) :
    ∀ l : List Nat, (∀ x ∈ l, LUX_THRESHOLD_HIGH - band ≤ x) → shadeChanges band false l ≤ 1 := by
  intro l
  induction l with
  | nil => intro _; simp [shadeChanges]
  | cons x xs ih =>
      intro h
      by_cases hx : LUX_THRESHOLD_HIGH ≤ x
      · have hstep : shadeStep band false x = true := by simp [shadeStep, hx]
        have hz := shadeChanges_shaded_zero band xs (fun y hy => h y (List.mem_cons_of_mem x hy))
        simp [shadeChanges, hstep, hz]
      · have hstep : shadeStep band false x = false := by simp [shadeStep, hx]
        have hrest := ih (fun y hy => h y (List.mem_cons_of_mem x hy))
        simpa [shadeChanges, hstep] using hrest

/-- C9: shading hysteresis.  For any implementation-chosen nonzero band,
the controller enters Shaded exactly when lux reaches LUX_THRESHOLD_HIGH
and returns to Exposed exactly when lux falls below the threshold minus
the band; consequently a lux signal oscillating exactly at the threshold
(never dipping more than to one below it) causes at most one shade-state
transition while it stays inside the hysteresis band. -/
theorem shading_hysteresis (band : Nat) (hband : 0 < band) :
    (∀ lux : Nat, shadeStep band false lux = true ↔ LUX_THRESHOLD_HIGH ≤ lux) ∧
    (∀ lux : Nat, shadeStep band true lux = false ↔ lux < LUX_THRESHOLD_HIGH - band) ∧
    (∀ l : List Nat, (∀ x ∈ l, LUX_THRESHOLD_HIGH - 1 ≤ x) →
        shadeChanges band false l ≤ 1) := by
  refine ⟨?_, ?_, ?_⟩
  · intro lux
    by_cases h : LUX_THRESHOLD_HIGH ≤ lux <;> simp [shadeStep, h]
  · intro lux
    by_cases h : lux < LUX_THRESHOLD_HIGH - band <;> simp [shadeStep, h]
  · intro l hl
    have hsub : LUX_THRESHOLD_HIGH - band ≤ LUX_THRESHOLD_HIGH - 1 :=
      Nat.sub_le_sub_left hband LUX_THRESHOLD_HIGH
    exact shadeChanges_from_exposed band l (fun x hx => le_trans hsub (hl x hx))

/-- Witness for C9 with band 1000 and a lux signal oscillating at the 15000 threshold. -/
theorem shading_hysteresis_witness :
    shadeChanges 1000 false [15000, 14999, 15000, 14999, 15000] ≤ 1 :=
  (shading_hysteresis 1000 (by decide)).2.2 [15000, 14999, 15000, 14999, 15000] (by decide)

end PlantCare
